import Mathlib

/-!
Verification of the `line-image-bot` repository (single source file `src/app.py`)
against its natural-language specification.

The Python program is a Flask webhook that receives an image, fetches its bytes,
base64-encodes them, sends them to a vision model, post-processes the explanation
text (hard length ceiling with a fixed truncation suffix), and replies; fixed
fallback messages are sent on each stage failure.  Operator endpoints expose
in-memory logs, stats, history and cached images behind a token check.

Strings are modelled as Lean `String` / `List Char`; Python `len` counts code
points, matching `List.length` on `String.toList`.  Timestamps, md5 ids,
logging side channels and the HTTP transport are elided except where a claim
is about them; each definition's doc comment points to the source lines it
embeds.
-/

namespace LineImageBot

set_option maxRecDepth 8192

/-! ## Reply composer (src/app.py lines 297-311) -/

/-- The fixed truncation suffix appended at line 299 of `src/app.py`. -/
def truncationSuffix : List Char :=
  "\n\n（文字数制限のため省略されました。続きが必要な場合は、もう一度画像を送信してください）".toList

/-- Tagged result of the length policy, per the spec's `DeliveryOutcome`.
`loggedOriginalLength` embeds the value interpolated into the warning
`"Response truncated - ... Original length: {len(explanation_text)}"` at
line 300 of `src/app.py`; at that point `explanation_text` has already been
reassigned at line 299, so the code logs the length of the truncated text. -/
inductive DeliveryOutcome where
  | Delivered (text : List Char)
  | DeliveredTruncated (text : List Char) (loggedOriginalLength : Nat)
deriving DecidableEq

/-- Lines 297-300 of `src/app.py`:
`if len(explanation_text) > 5000: explanation_text = explanation_text[:4900] + suffix`,
followed by the warning that logs `len(explanation_text)` (post-reassignment). -/
def compose (explanation : List Char) : DeliveryOutcome :=
  if 5000 < explanation.length then
    let t := explanation.take 4900 ++ truncationSuffix
    DeliveryOutcome.DeliveredTruncated t t.length
  else
    DeliveryOutcome.Delivered explanation

/-- The text a `DeliveryOutcome` renders to when replied (lines 308-311). -/
def outcomeText : DeliveryOutcome → List Char
  | DeliveryOutcome.Delivered t => t
  | DeliveryOutcome.DeliveredTruncated t _ => t

/-! ## Bounded in-memory buffers (src/app.py lines 29-36, 131-141)

`log_storage = deque(maxlen=100)` (line 30) and
`response_history = deque(maxlen=50)` (line 33): a `deque` with `maxlen`
discards its oldest (leftmost) entry when an `append` would exceed the bound.
`image_cache` (line 36) is a plain insertion-ordered dict with manual
eviction in `save_image_to_cache` (lines 131-141). -/

/-- `deque(maxlen := m).append x`: when the deque is full the oldest entry is
popped from the left before `x` is appended on the right. -/
def dequeAppend {α : Type} (m : Nat) (b : List α) (x : α) : List α :=
  if b.length < m then b ++ [x] else b.tail ++ [x]

/-- `image_cache[image_id] = image_data` on an insertion-ordered dict: an
existing key is updated in place (keeping its position), a fresh key is
appended at the end. -/
def dictInsert {γ : Type} (cache : List (String × γ)) (k : String) (v : γ) :
    List (String × γ) :=
  if cache.any (fun p => p.1 == k) then
    cache.map (fun p => if p.1 == k then (k, v) else p)
  else
    cache ++ [(k, v)]

/-- Lines 131-141 of `src/app.py` (md5 id computation elided; the cache is
returned instead of the id): insert, then
`if len(image_cache) > 50: del image_cache[next(iter(image_cache))]`,
i.e. drop the oldest (first-inserted) entry. -/
def save_image_to_cache {γ : Type} (cache : List (String × γ)) (image_id : String)
    (image_data : γ) : List (String × γ) :=
  let c := dictInsert cache image_id image_data
  if 50 < c.length then c.tail else c

/-! ## Helper lemmas about the buffers -/

theorem dequeAppend_length_le {α : Type} {m : Nat} (hm : 0 < m) {b : List α}
    (hb : b.length ≤ m) (x : α) : (dequeAppend m b x).length ≤ m := by
  unfold dequeAppend
  split
  · simp only [List.length_append, List.length_cons, List.length_nil]
    omega
  · rename_i h
    have : b.length = m := by omega
    simp only [List.length_append, List.length_tail, List.length_cons,
      List.length_nil]
    omega

theorem dequeAppend_length_eq {α : Type} {m : Nat} (hm : 0 < m) {b : List α}
    (hb : b.length ≤ m) (x : α) :
    (dequeAppend m b x).length = min (b.length + 1) m := by
  unfold dequeAppend
  split
  · simp only [List.length_append, List.length_cons, List.length_nil]
    omega
  · rename_i h
    have hbm : b.length = m := by omega
    simp only [List.length_append, List.length_tail, List.length_cons,
      List.length_nil]
    omega

theorem dequeAppend_suffix {α : Type} (m : Nat) (b : List α) (x : α) :
    dequeAppend m b x <:+ b ++ [x] := by
  unfold dequeAppend
  split
  · exact List.suffix_refl _
  · cases b with
    | nil => simp
    | cons a t => exact ⟨[a], rfl⟩

theorem dictInsert_length_le {γ : Type} (cache : List (String × γ)) (k : String)
    (v : γ) : (dictInsert cache k v).length ≤ cache.length + 1 := by
  unfold dictInsert
  split
  · simp
  · simp

theorem save_image_to_cache_length_le {γ : Type} {cache : List (String × γ)}
    (h : cache.length ≤ 50) (k : String) (v : γ) :
    (save_image_to_cache cache k v).length ≤ 50 := by
  have hc := dictInsert_length_le cache k v
  simp only [save_image_to_cache]
  split
  · rename_i hgt
    simp only [List.length_tail]
    omega
  · rename_i hle
    omega

theorem save_image_to_cache_suffix {γ : Type} (cache : List (String × γ))
    (k : String) (v : γ) :
    save_image_to_cache cache k v <:+ dictInsert cache k v := by
  simp only [save_image_to_cache]
  split
  · cases h : dictInsert cache k v with
    | nil => simp
    | cons a t => exact ⟨[a], rfl⟩
  · exact List.suffix_refl _

/-! ## The image pipeline `handle_image` (src/app.py lines 167-345)

The three fallible upstream collaborators (image fetch over HTTP, base64
encoding, the vision-model call) are passed in as `Except`-valued outcomes;
a raised Python exception is the `Except.error` case carrying `str(e)`.
Logging, stats counters, the image cache and the Slack notification side
channels of the handler are elided here (they are modelled separately);
the embedding keeps the control flow, the list of stages that actually ran,
and the replies sent through `line_bot_api.reply_message`. -/

/-- The three fallible stages of the image pipeline. -/
inductive Stage where
  | fetch
  | encode
  | model
deriving DecidableEq

/-- Outcomes of the external collaborators for one request. -/
structure UpstreamOutcomes where
  fetchResult : Except String (List Nat)
  encodeResult : List Nat → Except String String
  modelResult : String → Except String String

/-- What one run of `handle_image` did: which stages executed, which replies
were sent. -/
structure HandleImageResult where
  executed : List Stage
  replies : List String
deriving DecidableEq

/-- Fixed fetch-failure reply, line 211 of `src/app.py`. -/
def fetch_fail_reply : String := "画像の取得に失敗しました。もう一度送信してください。"

/-- Fixed encode-failure reply, line 228 of `src/app.py`. -/
def encode_fail_reply : String := "画像の処理に失敗しました。もう一度送信してください。"

/-- Fixed model-failure reply, lines 332-340 of `src/app.py`. -/
def model_fail_reply : String :=
  "申し訳ありません。画像の解析に失敗しました。\n\n以下をお試しください：\n・画像をより鮮明に撮影する\n・照明を明るくする\n・問題全体が写るように撮影する\n・手書きの場合は濃く、はっきりと書く\n\nもう一度送信してください！"

/-- Python `str.strip()`: drop leading and trailing whitespace (line 292). -/
def pyStrip (s : String) : String :=
  String.mk (((s.toList.dropWhile Char.isWhitespace).reverse.dropWhile
    Char.isWhitespace).reverse)

/-- Lines 188-345 of `src/app.py`: fetch the image (lines 189-213, on failure
reply with `fetch_fail_reply` and `return`); base64-encode (lines 216-230, on
failure reply with `encode_fail_reply` and `return`); call the model
(lines 233-345, on failure reply with `model_fail_reply`); on success strip
the content, apply the length policy (`compose`) and reply with the resulting
text. -/
def handle_image (o : UpstreamOutcomes) : HandleImageResult :=
  match o.fetchResult with
  | Except.error _ => { executed := [Stage.fetch], replies := [fetch_fail_reply] }
  | Except.ok imageData =>
    match o.encodeResult imageData with
    | Except.error _ =>
        { executed := [Stage.fetch, Stage.encode], replies := [encode_fail_reply] }
    | Except.ok base64Image =>
      match o.modelResult base64Image with
      | Except.error _ =>
          { executed := [Stage.fetch, Stage.encode, Stage.model],
            replies := [model_fail_reply] }
      | Except.ok content =>
          { executed := [Stage.fetch, Stage.encode, Stage.model],
            replies := [String.mk (outcomeText (compose (pyStrip content).toList))] }

/-! ## Slack notification (src/app.py lines 75-129) -/

/-- A log record; the app's records also carry timestamp/module/function,
elided here (lines 41-47). -/
structure LogEntry where
  level : String
  message : String
deriving DecidableEq

/-- Lines 75-97 of `src/app.py`.  `webhookUrl` is `SLACK_WEBHOOK_URL` (maybe
unset); `postOutcome` is the combined outcome of `requests.post` and
`raise_for_status()` inside the `try` block, either of which may raise.  The
return type is `Except`-valued so that an exception escaping to the caller
would be the (never produced) `Except.error` case; the `except` clause at
lines 96-97 converts every failure into an error log.  The payload
construction (lines 82-91) is pure data elided from the model. -/
def send_slack_notification (webhookUrl : Option String)
    (postOutcome : Except String Unit) (title message : String) :
    Except String (List LogEntry) :=
  match webhookUrl with
  | none => Except.ok [⟨"WARNING", "Slack Webhook URLが設定されていません"⟩]
  | some _ =>
    match postOutcome with
    | Except.ok _ => Except.ok [⟨"INFO", "Slack通知送信成功"⟩]
    | Except.error e => Except.ok [⟨"ERROR", "Slack通知送信失敗: " ++ e⟩]

/-- Lines 99-129 of `src/app.py`: the caller builds a daemon thread running
`send_notification` and returns immediately (`thread.start()` at line 129);
the first component is what the caller observes, the second is the outcome of
the detached notification task (which calls `send_slack_notification` with
the fixed title prefix of line 120).  Field construction and the per-type
error counters inside the thread body are elided. -/
def notify_error_async (webhookUrl : Option String)
    (postOutcome : Except String Unit) (errorType errorMessage : String)
    (userId : Option String) (additionalInfo : List (String × String)) :
    Except String Unit × Except String (List LogEntry) :=
  (Except.ok (),
   send_slack_notification webhookUrl postOutcome
     ("🚨 エラー発生: " ++ errorType) errorMessage)

/-! ## Text handler `handle_text` (src/app.py lines 347-404) -/

/-- One `response_history` entry as built at lines 356-363 (id and timestamp
elided). -/
structure HistoryEntry where
  user_id : String
  type : String
  message : Option String
  response : Option String
deriving DecidableEq

/-- Fixed help text, lines 366-386 of `src/app.py`. -/
def help_text : String :=
  "【勉強サポートBotの使い方】\n\n★ 数学や英語の問題の写真を送ってください！\n\n(1) 問題を撮影\n・問題全体が写るように\n・明るい場所で撮影\n・文字がはっきり見えるように\n\n(2) 画像を送信\n・このトークに画像を送るだけ！\n\n(3) 解説を確認\n・問題の解き方を段階的に説明\n・重要なポイントを解説\n・自分で解けるようにサポート\n\n【対応科目】\n・数学（中学〜高校2年レベル）\n・英語（文法・読解・語彙など）\n"

/-- Fixed prompt for non-help messages, line 397 of `src/app.py`. -/
def guide_reply : String :=
  "問題の画像を送信してください。数学や英語の問題を解説します！\n\n使い方を知りたい場合は「使い方」と送信してください。"

/-- Result of one run of `handle_text`: the reply sent and the new
`response_history`. -/
structure HandleTextResult where
  reply : String
  response_history : List HistoryEntry
deriving DecidableEq

/-- Lines 347-404 of `src/app.py`: if the message is exactly one of
`"使い方"`, `"ヘルプ"`, `"help"` (line 365) reply with `help_text`, otherwise
with `guide_reply`; in both branches the entry (with its `response` filled in)
is appended to the `response_history` deque (maxlen 50). -/
def handle_text (user_id user_message : String)
    (history : List HistoryEntry) : HandleTextResult :=
  if user_message = "使い方" ∨ user_message = "ヘルプ" ∨ user_message = "help" then
    { reply := help_text,
      response_history :=
        dequeAppend 50 history ⟨user_id, "text", some user_message, some help_text⟩ }
  else
    { reply := guide_reply,
      response_history :=
        dequeAppend 50 history ⟨user_id, "text", some user_message, some guide_reply⟩ }

/-! ## Operator endpoints (src/app.py lines 406-608) -/

/-- `expected_token = os.getenv('LOG_VIEW_TOKEN', 'your-secret-token')`
(lines 414, 439, 458, 486, 506). -/
def expected_token (envToken : Option String) : String :=
  envToken.getD "your-secret-token"

/-- Request counters (lines 66-73; `last_request` and `error_types` elided). -/
structure Stats where
  total_requests : Nat
  image_requests : Nat
  text_requests : Nat
  errors : Nat
deriving DecidableEq

/-- Body of an operator-endpoint response. -/
inductive OperatorBody where
  | unauthorized
  | unauthorizedText
  | imageNotFound
  | logsPayload (logs : List LogEntry) (st : Stats) (totalLogs filteredCount : Nat)
  | statsPayload (st : Stats) (imagesCount historyCount : Nat)
  | historyPayload (history : List HistoryEntry) (totalCount filteredCount : Nat)
  | imagePayload (bytes : List Nat)
  | dashboardHtml
deriving DecidableEq

/-- Lines 411-433 of `src/app.py` (`/logs`).  `tokenParam` is the `token`
query parameter (`None` when absent); on mismatch the endpoint returns 401
with `{error: Unauthorized}` and nothing else.  Otherwise the logs are
filtered by (upper-cased) level unless it is `ALL`, the last `limit` entries
are kept (`filtered_logs[-limit:]`, modelled for the positive `limit` the
`int(...)` parse produces from the default `50`). -/
def view_logs (tokenParam envToken : Option String) (log_storage : List LogEntry)
    (st : Stats) (level : String) (limit : Nat) : Nat × OperatorBody :=
  if tokenParam ≠ some (expected_token envToken) then
    (401, OperatorBody.unauthorized)
  else
    let filtered := if level.toUpper ≠ "ALL" then
        log_storage.filter (fun l => l.level == level.toUpper)
      else log_storage
    let filtered := filtered.drop (filtered.length - limit)
    (200, OperatorBody.logsPayload filtered st log_storage.length filtered.length)

/-- Lines 436-452 of `src/app.py` (`/stats`). -/
def view_stats (tokenParam envToken : Option String) (st : Stats)
    (imagesCount historyCount : Nat) : Nat × OperatorBody :=
  if tokenParam ≠ some (expected_token envToken) then
    (401, OperatorBody.unauthorized)
  else
    (200, OperatorBody.statsPayload st imagesCount historyCount)

/-- Lines 455-480 of `src/app.py` (`/history`): optional `user_id` filter,
last `limit` entries, newest first. -/
def view_history (tokenParam envToken : Option String)
    (response_history : List HistoryEntry) (limit : Nat)
    (userId : Option String) : Nat × OperatorBody :=
  if tokenParam ≠ some (expected_token envToken) then
    (401, OperatorBody.unauthorized)
  else
    let h := match userId with
      | some uid => response_history.filter (fun x : HistoryEntry => x.user_id == uid)
      | none => response_history
    let h := h.drop (h.length - limit)
    (200, OperatorBody.historyPayload h.reverse response_history.length h.length)

/-- Lines 483-500 of `src/app.py` (`/image/<image_id>`): 401 on bad token,
404 when the id is not cached, else the raw bytes. -/
def get_image (image_id : String) (tokenParam envToken : Option String)
    (image_cache : List (String × List Nat)) : Nat × OperatorBody :=
  if tokenParam ≠ some (expected_token envToken) then
    (401, OperatorBody.unauthorized)
  else
    match image_cache.lookup image_id with
    | none => (404, OperatorBody.imageNotFound)
    | some imageData => (200, OperatorBody.imagePayload imageData)

/-- Lines 503-608 of `src/app.py` (`/dashboard`): plain-text `Unauthorized`
with 401 on bad token, else the static HTML page (its content elided). -/
def dashboard (tokenParam envToken : Option String) : Nat × OperatorBody :=
  if tokenParam ≠ some (expected_token envToken) then
    (401, OperatorBody.unauthorizedText)
  else
    (200, OperatorBody.dashboardHtml)

/-! ## Notation normalizer

Modelled from the spec: the LaTeX-notation normalizer (`normalize`) belongs
to the LaTeX-aware iteration of this repository, which is not among the files
under `src/`; only `src/app.py` (an iteration without the normalizer) is.
The definitions below follow spec section 4.1, "Algorithm, in required
order", steps 1-14, with the edge-case policy of section 4.1 (an unmatched
or unterminated construct passes through unchanged) and the concrete
input/output pairs of spec section 8 pinning the two ambiguities: within
step 4 the literal caret-digit rewrite runs before bracket removal (so that
`x^\x7b2\x7d` yields `x^2`, not `x²`), and step 14 collapses runs of spaces
and tabs (newlines are handled by steps 11-12).

The scanners below use an explicit fuel argument initialised to the length
of the string being scanned; every recursive call consumes at least one
character, so the fuel never runs out and the `fuel = 0` branch (which
returns the rest of the string unchanged) is unreachable. -/

/-- Replace every (non-overlapping, left-to-right) occurrence of `pat` by
`rep`. -/
def replaceAllGo (pat rep : List Char) : Nat → List Char → List Char
  | 0, s => s
  | Nat.succ fuel, s =>
    match s with
    | [] => []
    | c :: rest =>
      if 0 < pat.length ∧ pat.isPrefixOf s then
        rep ++ replaceAllGo pat rep fuel (s.drop pat.length)
      else
        c :: replaceAllGo pat rep fuel rest

/-- Entry point for `replaceAllGo` with adequate fuel. -/
def replaceAll (pat rep s : List Char) : List Char :=
  replaceAllGo pat rep s.length s

/-- Apply an ordered table of literal substitutions (spec step 1: the table
is ordered longest-marker-first so no marker partially matches another). -/
def applyTable : List (List Char × List Char) → List Char → List Char
  | [], s => s
  | (pat, rep) :: rest, s => applyTable rest (replaceAll pat rep s)

/-- Shortest non-nested bracketed span: the characters before the first
close bracket, and the rest after it; `none` when unterminated. -/
def untilClose : List Char → Option (List Char × List Char)
  | [] => none
  | c :: rest =>
    if c = '}' then some ([], rest)
    else
      match untilClose rest with
      | some (content, r) => some (c :: content, r)
      | none => none

/-- Split at the first occurrence of `pat`: the characters before it and the
rest after it; `none` when `pat` does not occur. -/
def splitOnSeq (pat : List Char) : List Char → Option (List Char × List Char)
  | [] => none
  | c :: rest =>
    if pat.isPrefixOf (c :: rest) then some ([], (c :: rest).drop pat.length)
    else
      match splitOnSeq pat rest with
      | some (pre, post) => some (c :: pre, post)
      | none => none

/-- Modelled from the spec (section 4.1 step 1 and section 8): the ordered
marker-to-glyph substitution table, longest-marker-first among
prefix-overlapping entries. -/
def substitutionTable : List (List Char × List Char) :=
  [ ("\\leq".toList, "≦".toList), ("\\geq".toList, "≧".toList),
    ("\\neq".toList, "≠".toList), ("\\times".toList, "×".toList),
    ("\\div".toList, "÷".toList), ("\\cdot".toList, "・".toList),
    ("\\pm".toList, "±".toList), ("\\infty".toList, "∞".toList),
    ("\\alpha".toList, "α".toList), ("\\beta".toList, "β".toList),
    ("\\gamma".toList, "γ".toList), ("\\delta".toList, "δ".toList),
    ("\\theta".toList, "θ".toList), ("\\pi".toList, "π".toList),
    ("\\omega".toList, "ω".toList), ("\\Rightarrow".toList, "⇒".toList),
    ("\\rightarrow".toList, "→".toList), ("\\to".toList, "→".toList) ]

/-- The opening token of the two-argument fraction construct (spec step 2). -/
def fracCmd : List Char := "\\frac".toList ++ [ '{' ]

/-- Spec step 2: a two-argument bracketed fraction construct becomes
`(numerator)/(denominator)`; arguments are the shortest non-nested spans;
an unterminated construct passes through unchanged. -/
def fracGo : Nat → List Char → List Char
  | 0, s => s
  | Nat.succ fuel, s =>
    match s with
    | [] => []
    | c :: rest =>
      if fracCmd.isPrefixOf s then
        match untilClose (s.drop fracCmd.length) with
        | some (num, r1) =>
          match r1 with
          | '{' :: r2 =>
            match untilClose r2 with
            | some (den, r3) =>
                '(' :: (num ++ [ ')', '/', '(' ] ++ den ++ [ ')' ]) ++ fracGo fuel r3
            | none => c :: fracGo fuel rest
          | _ => c :: fracGo fuel rest
        | none => c :: fracGo fuel rest
      else c :: fracGo fuel rest

/-- Entry point for the fraction rewrite. -/
def fracRewrite (s : List Char) : List Char := fracGo s.length s

/-- Generic one-argument bracketed construct rewrite: `cmd` up to and
including the open bracket, then the shortest span to the close bracket,
rendered by `render`; unterminated constructs pass through unchanged. -/
def oneArgGo (cmd : List Char) (render : List Char → List Char) :
    Nat → List Char → List Char
  | 0, s => s
  | Nat.succ fuel, s =>
    match s with
    | [] => []
    | c :: rest =>
      if cmd.isPrefixOf s then
        match untilClose (s.drop cmd.length) with
        | some (arg, r) => render arg ++ oneArgGo cmd render fuel r
        | none => c :: oneArgGo cmd render fuel rest
      else c :: oneArgGo cmd render fuel rest

/-- Spec step 3: a one-argument bracketed root construct becomes `√(arg)`. -/
def sqrtRewrite (s : List Char) : List Char :=
  oneArgGo ("\\sqrt".toList ++ [ '{' ]) (fun a => '√' :: '(' :: (a ++ [ ')' ])) s.length s

/-- Spec step 4, literal part: caret-2 and caret-3 become the superscript
glyphs (run before bracket removal so a freshly unbracketed exponent is not
re-matched, per spec section 8). -/
def expGlyphRewrite (s : List Char) : List Char :=
  replaceAll [ '^', '3' ] [ '³' ] (replaceAll [ '^', '2' ] [ '²' ] s)

/-- Spec step 4, structural part: a bracketed exponent becomes an
unbracketed caret exponent. -/
def expBracketRewrite (s : List Char) : List Char :=
  oneArgGo [ '^', '{' ] (fun a => '^' :: a) s.length s

/-- Spec step 5: a bracketed subscript becomes an unbracketed underscore
subscript. -/
def subscriptRewrite (s : List Char) : List Char :=
  oneArgGo [ '_', '{' ] (fun a => '_' :: a) s.length s

/-- Spec step 6: the fixed closed set of function names that lose their
escaping marker. -/
def functionTable : List (List Char × List Char) :=
  ["sin", "cos", "tan", "log", "ln", "exp", "lim", "max", "min"].map
    (fun n => ('\\' :: n.toList, n.toList))

/-- Spec step 6 applied. -/
def functionRewrite (s : List Char) : List Char := applyTable functionTable s

/-- `\begin` token of a named environment. -/
def beginTok (name : String) : List Char :=
  "\\begin".toList ++ '{' :: (name.toList ++ [ '}' ])

/-- `\end` token of a named environment. -/
def endTok (name : String) : List Char :=
  "\\end".toList ++ '{' :: (name.toList ++ [ '}' ])

/-- A bracketed environment block becomes a single bracket-delimited string,
content preserved inside (spec step 7); unterminated blocks pass through. -/
def envGo (bTok eTok : List Char) : Nat → List Char → List Char
  | 0, s => s
  | Nat.succ fuel, s =>
    match s with
    | [] => []
    | c :: rest =>
      if bTok.isPrefixOf s then
        match splitOnSeq eTok (s.drop bTok.length) with
        | some (content, r) => '[' :: (content ++ [ ']' ]) ++ envGo bTok eTok fuel r
        | none => c :: envGo bTok eTok fuel rest
      else c :: envGo bTok eTok fuel rest

/-- One named environment rewritten to a bracket-delimited block. -/
def envRewrite (name : String) (s : List Char) : List Char :=
  envGo (beginTok name) (endTok name) s.length s

/-- Spec step 7: the two recognized matrix environments. -/
def matrixRewrite (s : List Char) : List Char :=
  envRewrite "pmatrix" (envRewrite "bmatrix" s)

/-- Spec step 8: a one-argument vector-arrow construct becomes the argument
followed by an arrow glyph. -/
def vecRewrite (s : List Char) : List Char :=
  oneArgGo ("\\vec".toList ++ [ '{' ]) (fun a => a ++ [ '→' ]) s.length s

/-- Spec step 9: integral and summation glyph substitution, literal, no
arguments captured. -/
def intSumRewrite (s : List Char) : List Char :=
  applyTable [ ("\\int".toList, "∫".toList), ("\\sum".toList, "Σ".toList) ] s

/-- Dollar-delimiter stripping: content between a dollar sign and the next
dollar sign is kept, the delimiters removed; an unpaired dollar sign passes
through (covers both single and double dollar wrappers). -/
def dollarGo : Nat → List Char → List Char
  | 0, s => s
  | Nat.succ fuel, s =>
    match s with
    | [] => []
    | c :: rest =>
      if c = '$' then
        match splitOnSeq [ '$' ] rest with
        | some (content, r) => content ++ dollarGo fuel r
        | none => c :: dollarGo fuel rest
      else c :: dollarGo fuel rest

/-- Spec step 10: math-delimiter stripping — dollar wrappers and the named
equation/align blocks are removed, content kept. -/
def mathDelimRewrite (s : List Char) : List Char :=
  replaceAll (endTok "align") []
    (replaceAll (beginTok "align") []
      (replaceAll (endTok "equation") []
        (replaceAll (beginTok "equation") [] (dollarGo s.length s))))

/-- Spec step 11: explicit line-break command (double backslash) becomes a
newline. -/
def lineBreakRewrite (s : List Char) : List Char :=
  replaceAll [ '\\', '\\' ] [ '\n' ] s

/-- Spec step 12: collapse runs of 3 or more newlines to 2. -/
def collapseNLGo : Nat → List Char → List Char
  | 0, s => s
  | Nat.succ fuel, s =>
    match s with
    | [] => []
    | c :: rest =>
      if c = '\n' then
        List.replicate (min (1 + (rest.takeWhile (fun d => d == '\n')).length) 2) '\n'
          ++ collapseNLGo fuel (rest.dropWhile (fun d => d == '\n'))
      else c :: collapseNLGo fuel rest

/-- Entry point for spec step 12. -/
def collapseNewlines (s : List Char) : List Char := collapseNLGo s.length s

/-- Spec step 13: catch-all — any remaining backslash-escaped alphabetic
word has its backslash stripped (last-resort cleanup). -/
def stripBSGo : Nat → List Char → List Char
  | 0, s => s
  | Nat.succ fuel, s =>
    match s with
    | [] => []
    | c :: rest =>
      if c = '\\' then
        match rest with
        | d :: rest2 =>
            if d.isAlpha then d :: stripBSGo fuel rest2
            else c :: stripBSGo fuel rest
        | [] => [c]
      else c :: stripBSGo fuel rest

/-- Entry point for spec step 13. -/
def stripBackslashes (s : List Char) : List Char := stripBSGo s.length s

/-- Spec step 14, first half: collapse runs of spaces/tabs to a single
space. -/
def collapseSpGo : Nat → List Char → List Char
  | 0, s => s
  | Nat.succ fuel, s =>
    match s with
    | [] => []
    | c :: rest =>
      if c == ' ' || c == '\t' then
        ' ' :: collapseSpGo fuel (rest.dropWhile (fun d => d == ' ' || d == '\t'))
      else c :: collapseSpGo fuel rest

/-- Entry point for the space-collapsing pass. -/
def collapseSpaces (s : List Char) : List Char := collapseSpGo s.length s

/-- Spec step 14, second half: trim leading and trailing whitespace. -/
def trimWs (s : List Char) : List Char :=
  ((s.dropWhile Char.isWhitespace).reverse.dropWhile Char.isWhitespace).reverse

/-- Modelled from the spec: `normalize(raw: string) -> string`, the
notation normalizer of the LaTeX-aware iteration (absent from `src/`),
spec section 4.1 steps 1-14 in the required order.  A total function by
construction: every pass leaves unmatched or unterminated constructs as
literal text. -/
def normalize (raw : String) : String :=
  let s := applyTable substitutionTable raw.toList
  let s := fracRewrite s
  let s := sqrtRewrite s
  let s := expGlyphRewrite s
  let s := expBracketRewrite s
  let s := subscriptRewrite s
  let s := functionRewrite s
  let s := matrixRewrite s
  let s := vecRewrite s
  let s := intSumRewrite s
  let s := mathDelimRewrite s
  let s := lineBreakRewrite s
  let s := collapseNewlines s
  let s := stripBackslashes s
  let s := collapseSpaces s
  String.mk (trimWs s)

/-! ## Concrete upstream outcomes used by the witnesses -/

/-- Outcomes whose image fetch fails. -/
def oFetchFail : UpstreamOutcomes :=
  ⟨Except.error "e", fun _ => Except.ok "", fun _ => Except.ok ""⟩

/-- Outcomes whose base64 encode fails. -/
def oEncodeFail : UpstreamOutcomes :=
  ⟨Except.ok [], fun _ => Except.error "e", fun _ => Except.ok ""⟩

/-- Outcomes whose model call fails. -/
def oModelFail : UpstreamOutcomes :=
  ⟨Except.ok [], fun _ => Except.ok "b64", fun _ => Except.error "e"⟩

/-! ## Claim theorems -/

/-- Helper: the over-limit branch of `compose`, stated as an equation. -/
theorem compose_eq_of_over (s : List Char) (h : 5000 < s.length) :
    compose s =
      DeliveryOutcome.DeliveredTruncated (s.take 4900 ++ truncationSuffix)
        ((s.take 4900 ++ truncationSuffix).length) := by
  unfold compose
  rw [if_pos h]

/-- Helper: the length of the truncated text is exactly `4900` plus the
suffix length whenever the input was over the limit. -/
theorem truncated_text_length (s : List Char) (h : 5000 < s.length) :
    (s.take 4900 ++ truncationSuffix).length = 4900 + truncationSuffix.length := by
  simp only [List.length_append, List.length_take]
  omega

/-- C1: for every explanation string `s` with `len(s) <= 5000`, the composer
delivers `s` unchanged (`Delivered s`): no truncation, no suffix, no
modification of the text. -/
theorem compose_within_limit_delivers_unchanged (s : List Char)
    (h : s.length ≤ 5000) : compose s = DeliveryOutcome.Delivered s := by
  unfold compose
  rw [if_neg (by omega)]

/-- Witness for C1 at a concrete short explanation. -/
theorem compose_within_limit_delivers_unchanged_witness :
    compose "短い説明".toList = DeliveryOutcome.Delivered "短い説明".toList :=
  compose_within_limit_delivers_unchanged "短い説明".toList (by decide)

/-- C2: for every explanation string `s` with `len(s) > 5000`, the delivered
text is the first 4900 characters of `s` followed by the fixed truncation
suffix, so its length is exactly `4900 + len(suffix)`; the cut is on raw
character count (`s[:4900]`), possibly mid-word. -/
theorem compose_over_limit_truncates (s : List Char) (h : 5000 < s.length) :
    compose s =
      DeliveryOutcome.DeliveredTruncated (s.take 4900 ++ truncationSuffix)
        ((s.take 4900 ++ truncationSuffix).length) ∧
    (s.take 4900 ++ truncationSuffix).length = 4900 + truncationSuffix.length :=
  ⟨compose_eq_of_over s h, truncated_text_length s h⟩

/-- Witness for C2 at a concrete 6000-character explanation. -/
theorem compose_over_limit_truncates_witness :
    compose (List.replicate 6000 'a') =
      DeliveryOutcome.DeliveredTruncated
        ((List.replicate 6000 'a').take 4900 ++ truncationSuffix)
        (((List.replicate 6000 'a').take 4900 ++ truncationSuffix).length) ∧
    ((List.replicate 6000 'a').take 4900 ++ truncationSuffix).length =
      4900 + truncationSuffix.length :=
  compose_over_limit_truncates (List.replicate 6000 'a')
    (by simp only [List.length_replicate]; omega)

/-- C3 (code bug): the claim says the truncated outcome records the original
(pre-truncation) length, 6000 for a 6000-character explanation.  In
`src/app.py` the reassignment `explanation_text = explanation_text[:4900] +
suffix` (line 299) happens before the warning
`"... Original length: {len(explanation_text)}"` (line 300), so the value
logged under the label "Original length" is the length of the already
truncated text, `4900 + 45 = 4945`, never `6000`. -/
theorem compose_over_limit_logs_truncated_length :
    compose (List.replicate 6000 'a') =
      DeliveryOutcome.DeliveredTruncated
        ((List.replicate 6000 'a').take 4900 ++ truncationSuffix)
        (4900 + truncationSuffix.length) ∧
    4900 + truncationSuffix.length = 4945 ∧
    (4945 : Nat) ≠ 6000 := by
  have h : 5000 < (List.replicate 6000 'a').length := by
    simp only [List.length_replicate]
    omega
  refine ⟨?_, by decide, by decide⟩
  rw [compose_eq_of_over (List.replicate 6000 'a') h,
    truncated_text_length (List.replicate 6000 'a') h]

/-- C4: each upstream failure (fetch, encode, model) is answered with the
single fixed guidance template keyed to the failed stage — a static 1:1
mapping of three pairwise distinct templates — regardless of the error value
and of anything the model produced; never the raw error or partial
explanation text. -/
theorem handle_image_failure_reply_templates (o : UpstreamOutcomes) :
    (∀ e, o.fetchResult = Except.error e →
      (handle_image o).replies = [fetch_fail_reply]) ∧
    (∀ img e, o.fetchResult = Except.ok img →
      o.encodeResult img = Except.error e →
      (handle_image o).replies = [encode_fail_reply]) ∧
    (∀ img b64 e, o.fetchResult = Except.ok img →
      o.encodeResult img = Except.ok b64 →
      o.modelResult b64 = Except.error e →
      (handle_image o).replies = [model_fail_reply]) ∧
    fetch_fail_reply ≠ encode_fail_reply ∧
    fetch_fail_reply ≠ model_fail_reply ∧
    encode_fail_reply ≠ model_fail_reply := by
  refine ⟨?_, ?_, ?_, by decide, by decide, by decide⟩
  · intro e hf
    simp only [handle_image, hf]
  · intro img e hf he
    simp only [handle_image, hf, he]
  · intro img b64 e hf he hm
    simp only [handle_image, hf, he, hm]

/-- Witness for C4 at concrete failing outcomes for each stage. -/
theorem handle_image_failure_reply_templates_witness :
    (handle_image oFetchFail).replies = [fetch_fail_reply] ∧
    (handle_image oEncodeFail).replies = [encode_fail_reply] ∧
    (handle_image oModelFail).replies = [model_fail_reply] :=
  ⟨(handle_image_failure_reply_templates oFetchFail).1 "e" rfl,
   (handle_image_failure_reply_templates oEncodeFail).2.1 [] "e" rfl rfl,
   (handle_image_failure_reply_templates oModelFail).2.2.1 [] "b64" "e" rfl rfl rfl⟩

/-- C5: every stage failure is terminal for the request — after a fetch
failure neither the encode nor the model stage runs, after an encode failure
the model stage does not run, no stage ever runs twice within one request
(the executed-stage list has no duplicates), and exactly one reply is sent
(the failed stage's fallback message in the failure cases). -/
theorem handle_image_failure_is_terminal (o : UpstreamOutcomes) :
    (∀ e, o.fetchResult = Except.error e →
      (handle_image o).executed = [Stage.fetch] ∧
      Stage.encode ∉ (handle_image o).executed ∧
      Stage.model ∉ (handle_image o).executed ∧
      (handle_image o).replies = [fetch_fail_reply]) ∧
    (∀ img e, o.fetchResult = Except.ok img →
      o.encodeResult img = Except.error e →
      (handle_image o).executed = [Stage.fetch, Stage.encode] ∧
      Stage.model ∉ (handle_image o).executed ∧
      (handle_image o).replies = [encode_fail_reply]) ∧
    (handle_image o).executed.Nodup ∧
    (handle_image o).replies.length = 1 := by
  refine ⟨?_, ?_, ?_, ?_⟩
  · intro e hf
    refine ⟨?_, ?_, ?_, ?_⟩ <;> simp [handle_image, hf]
  · intro img e hf he
    refine ⟨?_, ?_, ?_⟩ <;> simp [handle_image, hf, he]
  · rcases hf : o.fetchResult with e | img
    · simp [handle_image, hf]
    · rcases he : o.encodeResult img with e2 | b64
      · simp [handle_image, hf, he]
      · rcases hm : o.modelResult b64 with e3 | content <;>
          simp [handle_image, hf, he, hm]
  · rcases hf : o.fetchResult with e | img
    · simp [handle_image, hf]
    · rcases he : o.encodeResult img with e2 | b64
      · simp [handle_image, hf, he]
      · rcases hm : o.modelResult b64 with e3 | content <;>
          simp [handle_image, hf, he, hm]

/-- Witness for C5 at concrete failing outcomes. -/
theorem handle_image_failure_is_terminal_witness :
    ((handle_image oFetchFail).executed = [Stage.fetch] ∧
      Stage.encode ∉ (handle_image oFetchFail).executed ∧
      Stage.model ∉ (handle_image oFetchFail).executed ∧
      (handle_image oFetchFail).replies = [fetch_fail_reply]) ∧
    ((handle_image oEncodeFail).executed = [Stage.fetch, Stage.encode] ∧
      Stage.model ∉ (handle_image oEncodeFail).executed ∧
      (handle_image oEncodeFail).replies = [encode_fail_reply]) :=
  ⟨(handle_image_failure_is_terminal oFetchFail).1 "e" rfl,
   (handle_image_failure_is_terminal oEncodeFail).2.1 [] "e" rfl rfl⟩

/-- C6: the program provides a total notation normalizer
`normalize : String → String` (a Lean function, total by construction;
every pass leaves unmatched patterns as literal text), and it maps the
fraction example to `(1)/(2)` and the root example to `√(3)` as the spec
requires. -/
theorem normalize_total_examples :
    normalize "\\frac{1}{2}" = "(1)/(2)" ∧ normalize "\\sqrt{3}" = "√(3)" := by
  constructor <;> decide

/-- C7: every append to the three observability buffers preserves their
bounds — at most 100 entries in `log_storage`, 50 in `response_history`, 50
in `image_cache` — each evicting only its oldest entry, so the buffer after
the append is a suffix (the most recent entries, in insertion order) of the
buffer-plus-new-entry, with length `min (old + 1) bound` for the deques. -/
theorem buffers_bounded_after_append (ls : List LogEntry) (x : LogEntry)
    (rh : List HistoryEntry) (y : HistoryEntry)
    (ic : List (String × List Nat)) (k : String) (v : List Nat)
    (h1 : ls.length ≤ 100) (h2 : rh.length ≤ 50) (h3 : ic.length ≤ 50) :
    (dequeAppend 100 ls x).length ≤ 100 ∧
    (dequeAppend 100 ls x).length = min (ls.length + 1) 100 ∧
    dequeAppend 100 ls x <:+ ls ++ [x] ∧
    (dequeAppend 50 rh y).length ≤ 50 ∧
    (dequeAppend 50 rh y).length = min (rh.length + 1) 50 ∧
    dequeAppend 50 rh y <:+ rh ++ [y] ∧
    (save_image_to_cache ic k v).length ≤ 50 ∧
    save_image_to_cache ic k v <:+ dictInsert ic k v :=
  ⟨dequeAppend_length_le (by omega) h1 x,
   dequeAppend_length_eq (by omega) h1 x,
   dequeAppend_suffix 100 ls x,
   dequeAppend_length_le (by omega) h2 y,
   dequeAppend_length_eq (by omega) h2 y,
   dequeAppend_suffix 50 rh y,
   save_image_to_cache_length_le h3 k v,
   save_image_to_cache_suffix ic k v⟩

/-- Witness for C7 at concrete buffers. -/
theorem buffers_bounded_after_append_witness :
    (dequeAppend 100 ([] : List LogEntry) ⟨"INFO", "m"⟩).length ≤ 100 ∧
    (dequeAppend 100 ([] : List LogEntry) ⟨"INFO", "m"⟩).length =
      min (([] : List LogEntry).length + 1) 100 ∧
    dequeAppend 100 ([] : List LogEntry) ⟨"INFO", "m"⟩ <:+
      ([] : List LogEntry) ++ [⟨"INFO", "m"⟩] ∧
    (dequeAppend 50 ([] : List HistoryEntry) ⟨"u", "text", none, none⟩).length ≤ 50 ∧
    (dequeAppend 50 ([] : List HistoryEntry) ⟨"u", "text", none, none⟩).length =
      min (([] : List HistoryEntry).length + 1) 50 ∧
    dequeAppend 50 ([] : List HistoryEntry) ⟨"u", "text", none, none⟩ <:+
      ([] : List HistoryEntry) ++ [⟨"u", "text", none, none⟩] ∧
    (save_image_to_cache ([] : List (String × List Nat)) "id" [0]).length ≤ 50 ∧
    save_image_to_cache ([] : List (String × List Nat)) "id" [0] <:+
      dictInsert ([] : List (String × List Nat)) "id" [0] :=
  buffers_bounded_after_append [] ⟨"INFO", "m"⟩ [] ⟨"u", "text", none, none⟩
    [] "id" [0] (by decide) (by decide) (by decide)

/-- C8: notification side-effect failures never propagate to the request
handler — for every webhook configuration and every outcome of the HTTP
post, `send_slack_notification` returns (an `ok` log list, never an error),
and `notify_error_async` returns `ok` to its caller immediately while the
detached notification task itself also never fails, including when the
webhook URL is unset or the post fails. -/
theorem notifications_never_raise (url : Option String)
    (post : Except String Unit) (title msg etype emsg : String)
    (uid : Option String) (info : List (String × String)) :
    (∃ logs, send_slack_notification url post title msg = Except.ok logs) ∧
    (notify_error_async url post etype emsg uid info).1 = Except.ok () ∧
    (∃ logs, (notify_error_async url post etype emsg uid info).2 = Except.ok logs) := by
  unfold notify_error_async send_slack_notification
  rcases url with _ | u
  · exact ⟨⟨_, rfl⟩, rfl, ⟨_, rfl⟩⟩
  · rcases post with e | _
    · exact ⟨⟨_, rfl⟩, rfl, ⟨_, rfl⟩⟩
    · exact ⟨⟨_, rfl⟩, rfl, ⟨_, rfl⟩⟩

/-- C9: every operator endpoint (`/logs`, `/stats`, `/history`,
`/image/<image_id>`, `/dashboard`) answers 401 Unauthorized, with a body
carrying no log, stats, history or image data, whenever the `token` query
parameter differs from the configured `LOG_VIEW_TOKEN` (which defaults to
`your-secret-token` when the environment variable is unset). -/
theorem operator_endpoints_reject_bad_token (tokenParam envToken : Option String)
    (h : tokenParam ≠ some (expected_token envToken)) (logs : List LogEntry)
    (st : Stats) (level : String) (limit : Nat) (imagesCount historyCount : Nat)
    (hist : List HistoryEntry) (uid : Option String) (image_id : String)
    (cache : List (String × List Nat)) :
    view_logs tokenParam envToken logs st level limit =
      (401, OperatorBody.unauthorized) ∧
    view_stats tokenParam envToken st imagesCount historyCount =
      (401, OperatorBody.unauthorized) ∧
    view_history tokenParam envToken hist limit uid =
      (401, OperatorBody.unauthorized) ∧
    get_image image_id tokenParam envToken cache =
      (401, OperatorBody.unauthorized) ∧
    dashboard tokenParam envToken = (401, OperatorBody.unauthorizedText) ∧
    expected_token none = "your-secret-token" := by
  unfold view_logs view_stats view_history get_image dashboard
  refine ⟨?_, ?_, ?_, ?_, ?_, rfl⟩ <;> rw [if_pos h]

/-- Witness for C9 with the token parameter absent and the environment
variable unset. -/
theorem operator_endpoints_reject_bad_token_witness :
    view_logs none none [] ⟨0, 0, 0, 0⟩ "all" 50 =
      (401, OperatorBody.unauthorized) ∧
    view_stats none none ⟨0, 0, 0, 0⟩ 0 0 = (401, OperatorBody.unauthorized) ∧
    view_history none none [] 20 none = (401, OperatorBody.unauthorized) ∧
    get_image "id" none none [] = (401, OperatorBody.unauthorized) ∧
    dashboard none none = (401, OperatorBody.unauthorizedText) ∧
    expected_token none = "your-secret-token" :=
  operator_endpoints_reject_bad_token none none (by simp) [] ⟨0, 0, 0, 0⟩
    "all" 50 0 0 [] none "id" []

/-- C10: the text handler replies with the fixed help text exactly when the
message is one of `使い方`, `ヘルプ`, `help`, and with the fixed
image-request prompt otherwise, and in both cases the entry appended to the
response history carries the inbound message and the reply that was sent. -/
theorem handle_text_reply_and_history (user_id user_message : String)
    (history : List HistoryEntry) :
    ((handle_text user_id user_message history).reply = help_text ↔
      (user_message = "使い方" ∨ user_message = "ヘルプ" ∨ user_message = "help")) ∧
    ((handle_text user_id user_message history).reply = guide_reply ↔
      ¬(user_message = "使い方" ∨ user_message = "ヘルプ" ∨ user_message = "help")) ∧
    (handle_text user_id user_message history).response_history =
      dequeAppend 50 history
        ⟨user_id, "text", some user_message,
          some (handle_text user_id user_message history).reply⟩ := by
  have hne : help_text ≠ guide_reply := by decide
  by_cases hc : user_message = "使い方" ∨ user_message = "ヘルプ" ∨ user_message = "help"
  · unfold handle_text
    rw [if_pos hc]
    exact ⟨iff_of_true rfl hc, iff_of_false (fun h => hne h) (not_not_intro hc), rfl⟩
  · unfold handle_text
    rw [if_neg hc]
    exact ⟨iff_of_false (fun h => hne h.symm) hc, iff_of_true rfl hc, rfl⟩

end LineImageBot
